import Mathlib

/-!
Verification of the Conversation Flow Engine of the `agent-bg` repository.

This file gives a shallow embedding, in Lean 4, of the parts of the code
that the spec's testable properties talk about:

* `app/core/prompts.py` — the conversation-step and intent enums, the
  keyword intent classifier (`IntentAnalyzer.analyze`), the field
  extractor (`DataExtractor.extract_income` / `extract_amount`), the
  step templates and their rendering (`BasePromptTemplate.render`,
  `StepPromptBuilder.build`), the per-product offer calculator
  (`ProductPromptBuilder.build_offer`, `_get_card_type`), the flow
  transition function (`ConversationFlowManager.get_next_step`) and the
  progress metrics (`get_conversation_progress`).
* `app/services/langraph_agent.py` — the generate stage
  (`ConversationAgent.generate_response`, `_generate_llm_response`,
  `_clean_response`) and the persist/finalize stage
  (`ConversationAgent.save_conversation`) together with the lead
  emission contract of `LeadRepository.save_lead`.
* `app/core/utils.py` and `app/api/customers.py` — the two independent
  `calculate_propensity_score` formulas.

Python numbers (int/float) are idealized as `ℚ`; every arithmetic fact
proved below is exact at that level, and the concrete values appearing
in the claims (averages, offer limits, yields) are exactly representable
IEEE doubles for which Python's float arithmetic agrees with `ℚ`.
Python `int(...)` truncation toward zero is modeled explicitly.
-/

namespace AgentBG

/-- `ConversationStep` enum of `app/core/prompts.py`. -/
inductive ConversationStep where
  | greeting
  | collect_budget
  | collect_income
  | collect_employment
  | collect_amount
  | present_offer
  | awaiting_decision
  | handle_objection
  | request_clarification
  | close_positive
  | close_negative
  | completed
  | error
deriving DecidableEq

/-- `IntentType` enum of `app/core/prompts.py`. -/
inductive IntentType where
  | positive
  | negative
  | neutral
  | request_info
  | objection
  | unclear
deriving DecidableEq

/-- `ProductType` enum of `app/core/prompts.py`. -/
inductive ProductType where
  | credit_card
  | personal_credit
  | insurance
  | savings
  | mortgage
  | investment
deriving DecidableEq

/-- `CustomerSegment` enum of `app/core/prompts.py`. -/
inductive CustomerSegment where
  | premium
  | standard
  | basic
  | youth
  | senior
deriving DecidableEq

/-- A Python value stored in `collected_data`: either a number
(int/float, idealized as `ℚ`) or a string.  The engine's own writers
(the extractors and the regex fallback) only ever store floats in
`monthly_income` / `requested_amount` and category strings in
`employment_type`, but the flow manager defends against other shapes
with `isinstance` checks, which this sum type lets us mirror. -/
inductive PyVal where
  | num (x : ℚ)
  | str (s : String)
deriving DecidableEq

/-- The three qualification fields of `collected_data` that the flow
manager, the progress metrics and the lead gate consult
(`monthly_income`, `employment_type`, `requested_amount`); `none`
models an absent key.  No other key of the dict is ever read by the
code under verification. -/
structure CollectedData where
  monthly_income : Option PyVal
  employment_type : Option PyVal
  requested_amount : Option PyVal
deriving DecidableEq

/-- `collected_data` with no keys set. -/
def emptyData : CollectedData := ⟨none, none, none⟩

/-! ## Flow transition table (`ConversationFlowManager`) -/

/-- `ConversationFlowManager._has_valid_income`:
`isinstance(income, (int, float)) and 500 <= income <= 50000`. -/
def has_valid_income (d : CollectedData) : Bool :=
  match d.monthly_income with
  | some (.num x) => 500 ≤ x ∧ x ≤ 50000
  | _ => false

/-- Valid employment categories of `_has_valid_employment`. -/
def valid_employment_types : List String :=
  ["employee", "business_owner", "freelancer", "retired", "student", "unemployed"]

/-- `ConversationFlowManager._has_valid_employment`:
`employment in valid_types` (a non-string or absent value is not in the
list). -/
def has_valid_employment (d : CollectedData) : Bool :=
  match d.employment_type with
  | some (.str s) => valid_employment_types.contains s
  | _ => false

/-- `ConversationFlowManager._has_valid_amount`:
`isinstance(amount, (int, float)) and amount > 0`. -/
def has_valid_amount (d : CollectedData) : Bool :=
  match d.requested_amount with
  | some (.num x) => 0 < x
  | _ => false

/-- `ConversationFlowManager._get_clarification_next_step`. -/
def clarification_next_step (d : CollectedData) : ConversationStep :=
  if ¬ has_valid_income d then .collect_income
  else if ¬ has_valid_employment d then .collect_employment
  else if ¬ has_valid_amount d then .collect_amount
  else .present_offer

/-- `ConversationFlowManager.get_next_step`.  The Python function takes
the step and intent as enum-valued strings; on enum values the
`ConversationStep(...)` / `IntentType(...)` parses always succeed, so
the embedding works directly on the enums.  The `NEGATIVE` check is the
first statement of the function body, before any step dispatch. -/
def get_next_step (current : ConversationStep) (intent : IntentType)
    (d : CollectedData) : ConversationStep :=
  if intent = .negative then .close_negative
  else
    match current with
    | .greeting =>
        if intent = .positive then .collect_income else .request_clarification
    | .collect_income =>
        if has_valid_income d then .collect_employment else .collect_income
    | .collect_employment =>
        if has_valid_employment d then .collect_amount else .collect_employment
    | .collect_amount =>
        if has_valid_amount d then .present_offer else .collect_amount
    | .present_offer =>
        if intent = .positive then .awaiting_decision
        else if intent = .request_info then .present_offer
        else if intent = .objection then .handle_objection
        else .request_clarification
    | .awaiting_decision =>
        if intent = .positive then .close_positive
        else if intent = .negative then .close_negative
        else .awaiting_decision
    | .handle_objection =>
        if intent = .positive then .awaiting_decision
        else if intent = .request_info then .present_offer
        else .close_negative
    | .request_clarification => clarification_next_step d
    | _ => .error

/-- `ConversationFlowManager.is_conversation_complete`. -/
def is_conversation_complete (s : ConversationStep) : Bool :=
  s = .close_positive ∨ s = .close_negative ∨ s = .completed ∨ s = .error

/-! ## Conversation progress (`get_conversation_progress`) -/

/-- The canonical step order of `get_conversation_progress`. -/
def step_order : List ConversationStep :=
  [.greeting, .collect_income, .collect_employment, .collect_amount,
   .present_offer, .awaiting_decision, .close_positive]

/-- Number of the three required fields present (not `None`) in
`collected_data`: `sum(1 for field in required_fields if
collected_data.get(field) is not None)`. -/
def completed_fields (d : CollectedData) : Nat :=
  (if d.monthly_income.isSome then 1 else 0) +
  (if d.employment_type.isSome then 1 else 0) +
  (if d.requested_amount.isSome then 1 else 0)

/-- The dict returned by `get_conversation_progress` (the `current_step`
echo field is omitted; it is the argument itself). -/
structure ConversationProgress where
  progress_percentage : Nat
  data_completeness : Nat
  is_complete : Bool
  collected_fields : Nat
  total_fields : Nat
deriving DecidableEq

/-- `ConversationFlowManager.get_conversation_progress`.  Python's
`int((k / n) * 100)` truncates the float quotient toward zero; for the
values that occur here (`k ≤ 7`, `n ∈ {3, 7}`) this agrees with `Nat`
division `k * 100 / n`, which is what we use. -/
def get_conversation_progress (current : ConversationStep) (d : CollectedData) :
    ConversationProgress :=
  let pp :=
    match step_order.findIdx? (· = current) with
    | some i => i * 100 / 7
    | none => 50
  let cf := completed_fields d
  { progress_percentage := pp
    data_completeness := cf * 100 / 3
    is_complete := is_conversation_complete current
    collected_fields := cf
    total_fields := 3 }

/-! ## String helpers mirroring the Python primitives used by the
classifier and extractor -/

/-- Python `str.lower()` restricted to the character repertoire the
lexicons and inputs use: ASCII letters plus the Spanish accented
capitals. -/
def pyLowerChar (c : Char) : Char :=
  if 'A' ≤ c ∧ c ≤ 'Z' then Char.ofNat (c.toNat + 32)
  else if c = 'Á' then 'á'
  else if c = 'É' then 'é'
  else if c = 'Í' then 'í'
  else if c = 'Ó' then 'ó'
  else if c = 'Ú' then 'ú'
  else if c = 'Ñ' then 'ñ'
  else if c = 'Ü' then 'ü'
  else c

/-- Python `str.lower()`. -/
def pyLower (s : String) : String := String.mk (s.data.map pyLowerChar)

/-- ASCII whitespace as stripped by Python `str.strip()`. -/
def isPyWs (c : Char) : Bool :=
  c = ' ' ∨ c = '\t' ∨ c = '\n' ∨ c = '\r' ∨ c.toNat = 11 ∨ c.toNat = 12

/-- Python `str.strip()`. -/
def pyStrip (s : String) : String :=
  String.mk (((s.data.dropWhile isPyWs).reverse.dropWhile isPyWs).reverse)

/-- Whether `needle` is an initial segment of `hay`. -/
def leadsWith : List Char → List Char → Bool
  | [], _ => true
  | _ :: _, [] => false
  | a :: as, b :: bs => a = b && leadsWith as bs

/-- Whether `needle` occurs contiguously inside `hay`. -/
def subOccurs (needle : List Char) : List Char → Bool
  | [] => leadsWith needle []
  | c :: t => leadsWith needle (c :: t) || subOccurs needle t

/-- Python `needle in hay` on strings (substring containment). -/
def containsSub (hay needle : String) : Bool :=
  subOccurs needle.data hay.data

/-- `any(word in hay for word in kws)`. -/
def containsAny (hay : String) (kws : List String) : Bool :=
  kws.any (containsSub hay ·)

/-- `any(char.isdigit() for char in s)` (ASCII digits). -/
def hasDigit (s : String) : Bool := s.data.any Char.isDigit

/-! ## Keyword intent classifier (`IntentAnalyzer`) -/

/-- `IntentAnalyzer.POSITIVE_KEYWORDS`. -/
def POSITIVE_KEYWORDS : List String :=
  ["sí", "si", "ok", "acepto", "me interesa", "perfecto", "excelente",
   "genial", "claro", "por supuesto", "dale", "vamos", "quiero"]

/-- `IntentAnalyzer.NEGATIVE_KEYWORDS`. -/
def NEGATIVE_KEYWORDS : List String :=
  ["no", "nah", "no gracias", "no me interesa", "paso", "mejor no",
   "ahora no", "tal vez después", "no estoy seguro", "déjame pensarlo"]

/-- `IntentAnalyzer.INFO_REQUEST_KEYWORDS`. -/
def INFO_REQUEST_KEYWORDS : List String :=
  ["información", "detalles", "explica", "cómo", "qué", "cuál",
   "cuánto", "cuándo", "dónde", "por qué", "más info", "dime más"]

/-- `IntentAnalyzer.OBJECTION_KEYWORDS`. -/
def OBJECTION_KEYWORDS : List String :=
  ["pero", "sin embargo", "aunque", "el problema es", "me preocupa",
   "no estoy convencido", "dudas", "riesgo", "caro", "costoso"]

/-- `IntentAnalyzer.EMPLOYMENT_KEYWORDS` (the source list repeats
"independiente"; the duplicate is kept). -/
def EMPLOYMENT_KEYWORDS : List String :=
  ["empleado", "trabajo", "empresa", "empleada", "oficina", "sueldo",
   "negocio", "propio", "empresario", "comercio", "dueño", "independiente",
   "freelance", "independiente", "por mi cuenta", "proyectos",
   "jubilado", "pensionado", "retirado", "tercera edad",
   "estudiante", "estudio", "universidad", "carrera",
   "desempleado", "sin trabajo", "buscando trabajo", "cesante"]

/-- `IntentAnalyzer.analyze`: lexicon containment checks on the
lower-cased, stripped message, evaluated in source order with first
match winning; the digit fallback inspects the original (un-lowered)
message, exactly as the source does. -/
def analyze (message : String) (current_step : ConversationStep) : IntentType :=
  let ml := pyStrip (pyLower message)
  if containsAny ml POSITIVE_KEYWORDS then .positive
  else if containsAny ml NEGATIVE_KEYWORDS then .negative
  else if containsAny ml INFO_REQUEST_KEYWORDS then .request_info
  else if containsAny ml OBJECTION_KEYWORDS then .objection
  else if (current_step = .collect_income ∨ current_step = .collect_amount)
          ∧ hasDigit message then .neutral
  else if containsAny ml EMPLOYMENT_KEYWORDS then .neutral
  else .unclear

/-! ## Field extractor (`DataExtractor`) -/

/-- Scanner state for the matches of the Python regex
`\d+(?:,\d{3})*(?:\.\d{2})?` after `message.replace(',', '')` removed
all commas (which makes the `(?:,\d{3})*` group always match empty):
effectively `\d+(?:\.\d{2})?`, leftmost non-overlapping matches. -/
inductive ScanSt where
  | out
  | inInt (acc : List Char)
  | dot (acc : List Char)
  | dotd (acc : List Char) (d1 : Char)

/-- One pass of `re.findall` for `\d+(?:\.\d{2})?`: returns each match
as its character list.  `acc` holds the digits of the current integer
part reversed; `dot`/`dotd` track a candidate `.dd` fractional part,
which belongs to the match only when exactly two digits follow the dot
(otherwise the regex backtracks and later digits start a new match,
which the re-dispatch in the non-digit branches reproduces). -/
def scanNums : ScanSt → List Char → List (List Char)
  | .out, [] => []
  | .inInt acc, [] => [acc.reverse]
  | .dot acc, [] => [acc.reverse]
  | .dotd acc d1, [] => [acc.reverse, [d1]]
  | .out, c :: rest =>
      if c.isDigit then scanNums (.inInt [c]) rest else scanNums .out rest
  | .inInt acc, c :: rest =>
      if c.isDigit then scanNums (.inInt (c :: acc)) rest
      else if c = '.' then scanNums (.dot acc) rest
      else acc.reverse :: scanNums .out rest
  | .dot acc, c :: rest =>
      if c.isDigit then scanNums (.dotd acc c) rest
      else acc.reverse :: scanNums .out rest
  | .dotd acc d1, c :: rest =>
      if c.isDigit then (acc.reverse ++ ['.', d1, c]) :: scanNums .out rest
      else if c = '.' then acc.reverse :: scanNums (.dot [d1]) rest
      else acc.reverse :: [d1] :: scanNums .out rest

/-- Decimal digits to a natural number. -/
def digitsToNat (l : List Char) : Nat :=
  l.foldl (fun n c => n * 10 + (c.toNat - 48)) 0

/-- Python `float(m)` for a regex match `m` (all digits, or digits
followed by `.` and exactly two digits). -/
def parseNum (l : List Char) : ℚ :=
  let intPart := l.takeWhile Char.isDigit
  match l.dropWhile Char.isDigit with
  | '.' :: ds => (digitsToNat intPart : ℚ) + (digitsToNat ds : ℚ) / 100
  | _ => (digitsToNat intPart : ℚ)

/-- The matches of
`re.findall(r'\d+(?:,\d{3})*(?:\.\d{2})?', message.replace(',', ''))`
as character lists, before `float` conversion. -/
def extract_matches (message : String) : List (List Char) :=
  scanNums .out (message.data.filter (· ≠ ','))

/-- The numeric substrings found by `re.findall`, converted with
`float`. -/
def extract_numbers (message : String) : List ℚ :=
  (extract_matches message).map parseNum

/-- `DataExtractor.extract_income`: `None` when no number is found; the
average of the first two numbers when the lower-cased message contains
"entre" and at least two numbers were found; otherwise the first
number. -/
def extract_income (message : String) : Option ℚ :=
  match extract_matches message, containsSub (pyLower message) "entre" with
  | [], _ => none
  | m0 :: m1 :: _, true => some ((parseNum m0 + parseNum m1) / 2)
  | m0 :: _, _ => some (parseNum m0)

/-- `DataExtractor.extract_amount`: as `extract_income` but the "entre"
range case takes `max(float(numbers[0]), float(numbers[1]))`. -/
def extract_amount (message : String) : Option ℚ :=
  match extract_matches message, containsSub (pyLower message) "entre" with
  | [], _ => none
  | m0 :: m1 :: _, true => some (max (parseNum m0) (parseNum m1))
  | m0 :: _, _ => some (parseNum m0)

/-! ## Offer calculator (`ProductPromptBuilder`) -/

/-- `ProductPromptBuilder._get_card_type`. -/
def get_card_type (income : ℚ) : String :=
  if income ≥ 5000 then "Tarjeta Platinum"
  else if income ≥ 2500 then "Tarjeta Gold"
  else "Tarjeta Classic"

/-- The `calculation` lambda of `PRODUCT_CONFIGS` per product
(mortgage and investment have no config entry). -/
def product_calculation : ProductType → Option (ℚ → ℚ)
  | .credit_card => some fun income => min (income * 5) 15000
  | .personal_credit => some fun income => min (income * 12) 100000
  | .insurance => some fun income => income * (5 / 100)
  | .savings => some fun income => income * (15 / 100)
  | _ => none

/-- The numeric/tier content of the offer built by
`ProductPromptBuilder.build_offer` (the surrounding sentence text is
modeled separately by `offer_text`).  `generic` is the "no config"
branch, `noIncome` the falsy-`monthly_income` branch (absent key
defaults to `0`, and `0` is falsy); a truthy non-numeric value would
make the Python `calculation` lambda raise `TypeError`, modeled by
`typeError`. -/
inductive OfferDetails where
  | generic
  | noIncome
  | typeError
  | credit_card (limit : ℚ) (card : String)
  | personal_credit (amount : ℚ) (monthly_payment : ℚ)
  | insurance (premium : ℚ)
  | savings (deposit : ℚ) (annual_earnings : ℚ)
deriving DecidableEq

/-- `ProductPromptBuilder.build_offer`, structured form. -/
def build_offer (p : ProductType) (d : CollectedData) : OfferDetails :=
  match product_calculation p with
  | none => .generic
  | some calcFn =>
    match d.monthly_income with
    | none => .noIncome
    | some (.str s) => if s = "" then .noIncome else .typeError
    | some (.num income) =>
      if income = 0 then .noIncome
      else
        match p with
        | .credit_card => .credit_card (calcFn income) (get_card_type income)
        | .personal_credit => .personal_credit (calcFn income) (calcFn income / 36)
        | .insurance => .insurance (calcFn income)
        | .savings => .savings (calcFn income) (calcFn income * 12 * (65 / 1000))
        | _ => .generic

/-! ## Propensity-score formulas -/

/-- Segment multiplier table of `calculate_propensity_score` in
`app/core/utils.py` (`segment_multipliers.get(segment, 1.0)`). -/
def utils_segment_multiplier (segment : String) : ℚ :=
  if segment = "premium" then 13 / 10
  else if segment = "standard" then 1
  else if segment = "basic" then 8 / 10
  else 1

/-- Employment multiplier table of `calculate_propensity_score` in
`app/core/utils.py`; employment values outside the dict (and `None`)
leave the score unchanged, i.e. multiplier `1`. -/
def utils_employment_multiplier (employment : String) : ℚ :=
  if employment = "employee" then 11 / 10
  else if employment = "business_owner" then 12 / 10
  else if employment = "freelancer" then 9 / 10
  else if employment = "retired" then 8 / 10
  else 1

/-- `calculate_propensity_score` of `app/core/utils.py` (the
session-creation formula): base `0.5`, segment multiplier, income
multiplier (skipped when `monthly_income` is falsy, i.e. absent or
`0`), employment multiplier, then `max(0.1, min(1.0, score))`.  The
argument types are the shapes the callers pass: the segment string from
`user_data` and the numeric income / employment string from
`collected_data`. -/
def utils_calculate_propensity_score (segment : String)
    (monthly_income : Option ℚ) (employment : Option String) : ℚ :=
  let score : ℚ := (1 / 2) * utils_segment_multiplier segment
  let score :=
    match monthly_income with
    | some x =>
        if x = 0 then score
        else if x > 5000 then score * (12 / 10)
        else if x > 2000 then score * (11 / 10)
        else if x < 1000 then score * (8 / 10)
        else score
    | none => score
  let score :=
    match employment with
    | some e => score * utils_employment_multiplier e
    | none => score
  max (1 / 10) (min 1 score)

/-- Segment base table of `calculate_propensity_score` in
`app/api/customers.py` (`segment_scores.get(segment, 0.5)`). -/
def customers_segment_base (segment : String) : ℚ :=
  if segment = "premium" then 8 / 10
  else if segment = "standard" then 6 / 10
  else if segment = "basic" then 4 / 10
  else 1 / 2

/-- `calculate_propensity_score` of `app/api/customers.py` (the
lead-intent formula): segment base, credit-score adjustment (skipped
when `credit_score` is falsy: `None` or `0`), `+0.1` when
`monthly_income > 1500` (`None` converts to `0.0` via
`safe_decimal_to_float`), `+0.1` when the user holds products, then
`min(1.0, max(0.0, score))`. -/
def customers_calculate_propensity_score (segment : String)
    (credit_score : Option ℤ) (monthly_income : Option ℚ)
    (has_current_products : Bool) : ℚ :=
  let score : ℚ := customers_segment_base segment
  let score :=
    match credit_score with
    | some c =>
        if c = 0 then score
        else if c ≥ 800 then score + 2 / 10
        else if c ≥ 700 then score + 1 / 10
        else if c < 600 then score - 1 / 10
        else score
    | none => score
  let income : ℚ := match monthly_income with | some x => x | none => 0
  let score := if income > 1500 then score + 1 / 10 else score
  let score := if has_current_products then score + 1 / 10 else score
  min 1 (max 0 score)

/-! ## Number rendering helpers (Python `str` / format specs)

All numeric values the engine renders are nonnegative; Python `int()`
truncation and `str`/`format` rendering are modeled for that range.
`str` of a float is idealized as the exact decimal expansion of the
rational value (Python prints the shortest round-tripping decimal of
the IEEE double; for the engine's values the two agree). -/

/-- Python `int(q)` (truncation toward zero). -/
def pyInt (q : ℚ) : ℤ := q.num.tdiv (q.den : ℤ)

/-- Insert thousands separators into a reversed digit list. -/
def commaGroupAux : Nat → List Char → List Char
  | _, [] => []
  | k, c :: cs =>
      if k = 3 then ',' :: c :: commaGroupAux 1 cs
      else c :: commaGroupAux (k + 1) cs

/-- Python `format(n, ',')` for an integer `n`. -/
def pyIntComma (n : ℤ) : String :=
  (if n < 0 then "-" else "") ++
    String.mk ((commaGroupAux 0 (toString n.natAbs).data.reverse).reverse)

/-- Decimal digits of the fractional part `f ∈ [0, 1)`, up to the given
number of digits. -/
def fracDigitsStr : ℚ → Nat → String
  | _, 0 => ""
  | f, n + 1 =>
      if f = 0 then ""
      else
        let d : ℤ := ⌊f * 10⌋
        toString d.natAbs ++ fracDigitsStr (f * 10 - (d : ℚ)) n

/-- Python `str` of a nonnegative float value. -/
def pyNumStr (q : ℚ) : String :=
  let ip : ℤ := ⌊q⌋
  let f := q - (ip : ℚ)
  toString ip ++ "." ++ (if f = 0 then "0" else fracDigitsStr f 17)

/-- Python `format(q, ',')` of a nonnegative float value. -/
def pyNumStrComma (q : ℚ) : String :=
  let ip : ℤ := ⌊q⌋
  let f := q - (ip : ℚ)
  pyIntComma ip ++ "." ++ (if f = 0 then "0" else fracDigitsStr f 17)

/-! ## Step templates and rendering (`BasePromptTemplate`,
`StepPromptBuilder`) -/

/-- One piece of a `str.format` template: literal text, a plain
placeholder, or a placeholder with the thousands-grouping spec `:,`. -/
inductive TmplPart where
  | lit (s : String)
  | var (n : String)
  | varComma (n : String)

/-- A parsed template. -/
abbrev Tmpl := List TmplPart

/-- The template's literal source text (`self.template`), printing each
placeholder back in Python format syntax. -/
def rawText (t : Tmpl) : String :=
  t.foldr
    (fun p acc =>
      (match p with
       | .lit s => s
       | .var n => "\x7b" ++ n ++ "\x7d"
       | .varComma n => "\x7b" ++ n ++ ":,\x7d") ++ acc)
    ""

/-- First binding of a key in a variable environment (environments are
listed highest-precedence first, mirroring the Python dict whose later
`update`s win). -/
def lookupEnv (env : List (String × PyVal)) (k : String) : Option PyVal :=
  (env.find? (fun e => e.1 = k)).map (·.2)

/-- `format(value)` with an empty spec: `str`. -/
def fmtPlain : PyVal → String
  | .num q => pyNumStr q
  | .str s => s

/-- Substitute every placeholder, failing (`none`) on a missing key
(Python `KeyError`) or on the `:,` spec applied to a string value
(Python `ValueError`). -/
def renderOpt (env : List (String × PyVal)) : Tmpl → Option String
  | [] => some ""
  | .lit s :: r => (renderOpt env r).map (s ++ ·)
  | .var n :: r =>
      match lookupEnv env n with
      | none => none
      | some v => (renderOpt env r).map (fmtPlain v ++ ·)
  | .varComma n :: r =>
      match lookupEnv env n with
      | none => none
      | some (.str _) => none
      | some (.num q) => (renderOpt env r).map (pyNumStrComma q ++ ·)

/-- `BasePromptTemplate.render`: `self.template.format(**kwargs)`, with
the raw template returned whole when formatting raises (the `except`
branches of the source). -/
def render (t : Tmpl) (env : List (String × PyVal)) : String :=
  (renderOpt env t).getD (rawText t)

/-- `STEP_TEMPLATES[GREETING]`. -/
def greeting_template : Tmpl :=
  [.lit "¡Hola ", .var "user_name",
   .lit "! 👋 \n            \nVi que estuviste consultando opciones de ",
   .var "product_type_display", .lit ". ", .var "segment_greeting",
   .lit "\n\n¿Te gustaría que te ayude a encontrar la mejor opción para tu perfil?"]

/-- `STEP_TEMPLATES[COLLECT_INCOME]`. -/
def collect_income_template : Tmpl :=
  [.var "confirmation_phrase",
   .lit " Para recomendarte las mejores opciones disponibles, ¿podrías contarme cuáles son tus ingresos mensuales aproximados?\n\n",
   .var "income_context"]

/-- `STEP_TEMPLATES[COLLECT_EMPLOYMENT]`. -/
def collect_employment_template : Tmpl :=
  [.lit "Perfecto, con $", .varComma "monthly_income",
   .lit " mensuales tienes buenas opciones. 💪\n\n¿Trabajas como empleado en una empresa o tienes tu propio negocio?"]

/-- `STEP_TEMPLATES[COLLECT_AMOUNT]`. -/
def collect_amount_template : Tmpl :=
  [.lit "Excelente información. ", .var "employment_acknowledgment",
   .lit "\n\n", .var "amount_question"]

/-- `STEP_TEMPLATES[PRESENT_OFFER]`. -/
def present_offer_template : Tmpl :=
  [.lit "¡Tengo la opción perfecta para ti! 🎯\n\n", .var "offer_details",
   .lit "\n\n¿Te gustaría que te envíe más información detallada o tienes alguna pregunta específica?"]

/-- `STEP_TEMPLATES[AWAITING_DECISION]`. -/
def awaiting_decision_template : Tmpl :=
  [.var "decision_prompt", .lit "\n\n¿Te interesa proceder con esta opción?"]

/-- `STEP_TEMPLATES[CLOSE_POSITIVE]`. -/
def close_positive_template : Tmpl :=
  [.lit "¡Excelente decisión, ", .var "user_name",
   .lit "! 🙌\n\nUn asesor especializado se contactará contigo en las próximas 24-48 horas para finalizar tu ",
   .var "product_type_display", .lit ".\n\n¡Gracias por confiar en nosotros!"]

/-- `STEP_TEMPLATES[CLOSE_NEGATIVE]`. -/
def close_negative_template : Tmpl :=
  [.lit "Entiendo perfectamente, ", .var "user_name",
   .lit ". \n\nGracias por tu tiempo. Si en el futuro cambias de opinión, estaré aquí para ayudarte.\n\n¡Que tengas un excelente día! 👋"]

/-- `STEP_TEMPLATES[HANDLE_OBJECTION]`. -/
def handle_objection_template : Tmpl :=
  [.lit "Entiendo tu preocupación sobre ", .var "objection_topic",
   .lit ". ", .var "objection_response",
   .lit "\n\n¿Hay algo más específico que te gustaría saber?"]

/-- `STEP_TEMPLATES[REQUEST_CLARIFICATION]`. -/
def request_clarification_template : Tmpl :=
  [.lit "No entendí bien tu mensaje, ¿podrías darme más detalles? \n\n",
   .var "clarification_examples",
   .lit "\n\n¡Gracias por tu paciencia! 😊"]

/-- `StepPromptBuilder.STEP_TEMPLATES` (steps with no template entry:
`COLLECT_BUDGET`, `COMPLETED`, `ERROR`). -/
def step_template : ConversationStep → Option Tmpl
  | .greeting => some greeting_template
  | .collect_income => some collect_income_template
  | .collect_employment => some collect_employment_template
  | .collect_amount => some collect_amount_template
  | .present_offer => some present_offer_template
  | .awaiting_decision => some awaiting_decision_template
  | .close_positive => some close_positive_template
  | .close_negative => some close_negative_template
  | .handle_objection => some handle_objection_template
  | .request_clarification => some request_clarification_template
  | _ => none

/-- `SystemPromptBuilder._get_product_display`. -/
def product_display : ProductType → String
  | .credit_card => "Tarjetas de Crédito"
  | .personal_credit => "Créditos Personales"
  | .insurance => "Seguros"
  | .savings => "Cuentas de Ahorro"
  | .mortgage => "Créditos Hipotecarios"
  | .investment => "Inversiones"

/-- `StepPromptBuilder.SEGMENT_GREETINGS`. -/
def segment_greeting : CustomerSegment → String
  | .premium => "Como cliente preferencial, quiero asegurarme de ofrecerte las mejores condiciones."
  | .standard => "Me encantaría ayudarte a encontrar algo que se ajuste perfectamente a tus necesidades."
  | .basic => "Estoy aquí para ayudarte de manera sencilla y sin complicaciones."
  | .youth => "¡Perfecto timing! Tenemos opciones geniales para personas como tú."
  | .senior => "Será un placer ayudarte con toda la información que necesites."

/-- `StepPromptBuilder._get_confirmation_phrase`. -/
def confirmation_phrase : CustomerSegment → String
  | .premium => "Perfecto."
  | .standard => "Excelente."
  | .basic => "¡Muy bien!"
  | .youth => "¡Genial!"
  | .senior => "Muy bien."

/-- `StepPromptBuilder._get_income_context`. -/
def income_context : ProductType → String
  | .credit_card => "Esto me ayuda a calcular el límite ideal para ti."
  | .personal_credit => "Con esta info puedo mostrarte los montos disponibles."
  | .insurance => "Así puedo sugerirte coberturas acordes a tu perfil."
  | .savings => "Para recomendarte el mejor plan de ahorro."
  | .mortgage => "Es fundamental para evaluar tu capacidad de financiamiento."
  | .investment => "Necesario para armar una estrategia de inversión adecuada."

/-- `ProductPromptBuilder.get_amount_question` (default for products
without a config entry). -/
def amount_question : ProductType → String
  | .credit_card => "¿Qué límite de crédito te gustaría tener en tu tarjeta?"
  | .personal_credit => "¿Qué monto de crédito necesitas aproximadamente?"
  | .insurance => "¿Qué tipo de cobertura buscas: vida, hogar, auto o familiar?"
  | .savings => "¿Qué monto te gustaría ahorrar mensualmente?"
  | _ => "¿Qué monto te interesa?"

/-- The `employment_acknowledgment` step variable
(`collected_data.get("employment_type", "")` compared to the two known
categories). -/
def employment_acknowledgment (d : CollectedData) : String :=
  match d.employment_type with
  | some (.str "employee") => "Es genial que tengas un empleo estable."
  | some (.str "business_owner") => "¡Excelente que tengas tu propio negocio!"
  | _ => ""

/-- `", ".join(benefits[:3][:-1]) + f" y {benefits[2]}"` per product. -/
def benefits_text : ProductType → String
  | .credit_card => "Sin anualidad el primer año, Cashback en compras diarias y Meses sin intereses en tiendas afiliadas"
  | .personal_credit => "Tasas preferenciales desde 8.9%, Plazos flexibles hasta 60 meses y Aprobación en 24 horas"
  | .insurance => "Cobertura integral, Primas competitivas y Atención 24/7 en emergencias"
  | .savings => "Rendimientos hasta 6.5% anual, Sin monto mínimo de apertura y Retiros ilimitados"
  | _ => ""

/-- The sentence returned by `ProductPromptBuilder.build_offer`.  The
`typeError` case has no return value in Python (the `calculation`
lambda raises); the sentinel below stands for that raise and is
excluded by the numeric-income hypotheses of the theorems that evaluate
responses. -/
def offer_text (p : ProductType) (d : CollectedData) : String :=
  match build_offer p d with
  | .generic => "Te tengo una excelente opción que será perfecta para ti."
  | .noIncome => "Necesito conocer tus ingresos para darte la mejor recomendación."
  | .typeError => "raise TypeError"
  | .credit_card limit card =>
      "Con tus ingresos de $" ++
        pyNumStrComma (match d.monthly_income with
                       | some (.num x) => x | _ => 0) ++
        ", te recomiendo nuestra " ++ card ++ " con límite de hasta $" ++
        pyIntComma (pyInt limit) ++ ", que incluye " ++
        benefits_text .credit_card ++ "."
  | .personal_credit amount payment =>
      "Puedo ofrecerte un crédito de hasta $" ++ pyIntComma (pyInt amount) ++
        " con cuotas desde $" ++ pyIntComma (pyInt payment) ++
        " mensuales, que incluye " ++ benefits_text .personal_credit ++ "."
  | .insurance premium =>
      "Te recomiendo nuestro seguro integral con prima mensual desde $" ++
        pyIntComma (pyInt premium) ++ ", que incluye " ++
        benefits_text .insurance ++ "."
  | .savings deposit annual =>
      "Tu cuenta de ahorros con $" ++ pyIntComma (pyInt deposit) ++
        " mensuales generaría aproximadamente $" ++ pyIntComma (pyInt annual) ++
        " al año, e incluye " ++ benefits_text .savings ++ "."

/-- `PromptBuilder.build_product_offer`: wraps `build_offer` and turns
any exception into the generic sentence. -/
def build_product_offer (p : ProductType) (d : CollectedData) : String :=
  if build_offer p d = .typeError then
    "Te tengo una excelente opción que será perfecta para ti."
  else offer_text p d

/-- `StepPromptBuilder._get_step_specific_vars` (note the source quirk:
`employment_acknowledgment` is produced at step `COLLECT_EMPLOYMENT`,
not at `COLLECT_AMOUNT` whose template consumes it). -/
def step_specific_vars (step : ConversationStep) (p : ProductType)
    (seg : CustomerSegment) (d : CollectedData) : List (String × PyVal) :=
  match step with
  | .collect_income =>
      [("confirmation_phrase", .str (confirmation_phrase seg)),
       ("income_context", .str (income_context p))]
  | .collect_employment =>
      [("employment_acknowledgment", .str (employment_acknowledgment d))]
  | .collect_amount => [("amount_question", .str (amount_question p))]
  | .present_offer => [("offer_details", .str (offer_text p d))]
  | _ => []

/-- The entries of `collected_data` as format variables (only present
keys appear in the Python dict). -/
def collected_env (d : CollectedData) : List (String × PyVal) :=
  (match d.monthly_income with
   | some v => [("monthly_income", v)] | none => []) ++
  (match d.employment_type with
   | some v => [("employment_type", v)] | none => []) ++
  (match d.requested_amount with
   | some v => [("requested_amount", v)] | none => [])

/-- The variable dict built by `StepPromptBuilder.build`:
base variables, then `**collected_data`, then `**extra_vars`, then
`variables.update(step_specific)` — listed here highest-precedence
first, since `lookupEnv` takes the first binding. -/
def step_prompt_env (step : ConversationStep) (userName : String)
    (p : ProductType) (seg : CustomerSegment) (d : CollectedData)
    (extra : List (String × PyVal)) : List (String × PyVal) :=
  step_specific_vars step p seg d ++ extra ++ collected_env d ++
    [("user_name", .str userName),
     ("product_type_display", .str (product_display p)),
     ("segment_greeting", .str (segment_greeting seg))]

/-- `StepPromptBuilder.build` / `PromptBuilder.build_step_prompt` on
enum-valued steps: steps without a template entry yield the fixed
fallback sentence; otherwise the rendered template. -/
def build_step_prompt (step : ConversationStep) (userName : String)
    (p : ProductType) (seg : CustomerSegment) (d : CollectedData)
    (extra : List (String × PyVal)) : String :=
  match step_template step with
  | none => "Continúa la conversación apropiadamente."
  | some t => render t (step_prompt_env step userName p seg d extra)

/-! ## Generate stage (`ConversationAgent.generate_response`) -/

/-- `ConversationAgent._generate_negative_response` (the source always
returns `responses[0]`). -/
def negative_response (userName : String) : String :=
  "Entiendo perfectamente, " ++ userName ++ ". Gracias por tu tiempo."

/-- Whether the last character of `s` is terminal punctuation
(`cleaned[-1] in ".!?"`). -/
def endsWithPunct (s : String) : Bool :=
  match s.data.reverse with
  | c :: _ => c = '.' ∨ c = '!' ∨ c = '?'
  | [] => false

/-- `ConversationAgent._clean_response`: empty input yields a default
question; otherwise strip, cap at 500 characters (truncate to 497 and
append `"..."`), and append a period when the text does not end in
terminal punctuation. -/
def clean_response (r : String) : String :=
  if r = "" then "¿En qué puedo ayudarte?"
  else
    let c := pyStrip r
    let c := if c.length > 500 then String.mk (c.data.take 497) ++ "..." else c
    if c ≠ "" ∧ ¬ endsWithPunct c then c ++ "." else c

/-- The outcome of the text-generation backend call
(`self.llm.ainvoke`): `some content` on success, `none` when the call
raises or times out. -/
abbrev LlmResult := Option String

/-- `ConversationAgent._generate_llm_response`: the backend's reply
(stripped) on success, the locally built step prompt on failure. -/
def generate_llm_response (llm : LlmResult) (step : ConversationStep)
    (userName : String) (p : ProductType) (seg : CustomerSegment)
    (d : CollectedData) (extra : List (String × PyVal)) : String :=
  match llm with
  | some content => pyStrip content
  | none => build_step_prompt step userName p seg d extra

/-- The response text and next step produced by
`ConversationAgent.generate_response` (its `try` body): the flow
transition is computed first, then the special cases — a canned
empathetic close on `negative` intent outside `greeting`, the
`close_positive` shortcut when a `positive` intent arrives at
`present_offer`, the offer construction when the computed next step is
`present_offer` — and otherwise the standard step response; the
response is passed through `_clean_response` and the state's
`current_step` is set to the computed next step. -/
def generate_stage (llm : LlmResult) (needsRetry : Bool)
    (current : ConversationStep) (intent : IntentType) (d : CollectedData)
    (userName : String) (p : ProductType) (seg : CustomerSegment) :
    String × ConversationStep :=
  if intent = .negative ∧ current ≠ .greeting then
    (clean_response (negative_response userName), .close_negative)
  else if current = .present_offer ∧ intent = .positive then
    (clean_response
      (generate_llm_response llm .close_positive userName p seg d []),
     .close_positive)
  else if get_next_step current intent d = .present_offer then
    (clean_response
      (generate_llm_response llm .present_offer userName p seg d
        [("offer_details", .str (build_product_offer p d))]),
     get_next_step current intent d)
  else
    (clean_response
      (generate_llm_response llm
        (if needsRetry then current else get_next_step current intent d)
        userName p seg d []),
     get_next_step current intent d)

/-! ## Persist/finalize stage (`ConversationAgent.save_conversation`)
and lead emission -/

/-- The fields of `ConversationState` that `save_conversation`'s lead
gate reads or writes. -/
structure SessionState where
  current_step : ConversationStep
  collected_data : CollectedData
  intent_confirmed : Option Bool
  lead_generated : Option Bool
  lead_id : Option String
deriving DecidableEq

/-- The lead-emission condition of `save_conversation`:
`current_step == "close_positive" and intent_confirmed and
self.lead_repo and data_completeness >= 75`.  `intent_confirmed` is
`Optional[bool]`, truthy exactly on `True`.  Note that
`lead_generated` is NOT consulted. -/
def lead_gate (leadRepo : Bool) (s : SessionState) : Bool :=
  s.current_step = .close_positive ∧ s.intent_confirmed = some true ∧
    leadRepo ∧
    75 ≤ (get_conversation_progress s.current_step s.collected_data).data_completeness

/-- One run of `save_conversation` (with `lead_repo.save_lead`
succeeding and returning `newLeadId`): the updated state and the number
of `save_lead` calls (0 or 1) the run performed.  `save_lead` itself is
a plain `INSERT INTO leads ... RETURNING id` with no conflict clause,
so each call inserts a fresh lead row. -/
def save_conversation (leadRepo : Bool) (newLeadId : String)
    (s : SessionState) : SessionState × Nat :=
  if lead_gate leadRepo s then
    ({ s with lead_generated := some true, lead_id := some newLeadId }, 1)
  else (s, 0)

/-- `n` consecutive runs of `save_conversation` on the same session,
counting the total number of `save_lead` calls (= lead rows inserted
for that `session_id`). -/
def save_conversation_iter (leadRepo : Bool) (newLeadId : String) :
    Nat → SessionState → SessionState × Nat
  | 0, s => (s, 0)
  | n + 1, s =>
      let r := save_conversation leadRepo newLeadId s
      let rest := save_conversation_iter leadRepo newLeadId n r.1
      (rest.1, r.2 + rest.2)

/-- A session state in which a lead has already been emitted
(`lead_generated` and `lead_id` set) while the terminal
`close_positive` conditions still hold: the failing input for the
lead idempotence claim. -/
def dup_lead_state : SessionState :=
  { current_step := .close_positive
    collected_data :=
      ⟨some (.num 2500), some (.str "employee"), some (.num 5000)⟩
    intent_confirmed := some true
    lead_generated := some true
    lead_id := some "lead-1" }

/-! # Theorems -/

/-- `has_valid_income` unfolded to its arithmetic content. -/
theorem has_valid_income_iff (d : CollectedData) :
    has_valid_income d = true ↔
      ∃ x : ℚ, d.monthly_income = some (.num x) ∧ 500 ≤ x ∧ x ≤ 50000 := by
  cases h : d.monthly_income with
  | none => simp [has_valid_income, h]
  | some v =>
      cases v with
      | num x => simp [has_valid_income, h]
      | str s => simp [has_valid_income, h]

/-- C3: for every current step (terminal ones included) and every
collected data, the transition function maps `NEGATIVE` intent to
`CLOSE_NEGATIVE`; the check sits before every step-specific rule, so
the quantification over all steps shows the override is absolute. -/
theorem C3_negative_global_override (current : ConversationStep)
    (d : CollectedData) :
    get_next_step current .negative d = .close_negative := by
  simp [get_next_step]

/-- C4: for every non-`NEGATIVE` intent, the `COLLECT_INCOME` step
advances to `COLLECT_EMPLOYMENT` exactly when `monthly_income` holds a
number in `[500, 50000]`, and self-loops otherwise (absent, non-numeric
or out-of-range income never advances). -/
theorem C4_collect_income_gate (intent : IntentType) (d : CollectedData)
    (h : intent ≠ .negative) :
    get_next_step .collect_income intent d =
      (if has_valid_income d then .collect_employment else .collect_income) ∧
    (get_next_step .collect_income intent d = .collect_employment ↔
      ∃ x : ℚ, d.monthly_income = some (.num x) ∧ 500 ≤ x ∧ x ≤ 50000) := by
  have hg : get_next_step .collect_income intent d =
      (if has_valid_income d then .collect_employment else .collect_income) := by
    simp [get_next_step, h]
  refine ⟨hg, ?_⟩
  rw [hg, ← has_valid_income_iff]
  cases hb : has_valid_income d <;> simp [hb]

/-- Witness for C4 at a concrete in-range income. -/
theorem C4_collect_income_gate_witness :
    get_next_step .collect_income .neutral
      ⟨some (.num 2500), none, none⟩ = .collect_employment := by
  rw [(C4_collect_income_gate .neutral ⟨some (.num 2500), none, none⟩
        (by simp)).1]
  have hv : has_valid_income ⟨some (.num 2500), none, none⟩ = true := by
    rw [has_valid_income_iff]
    exact ⟨2500, rfl, by norm_num, by norm_num⟩
  rw [hv]
  rfl

/-- C10: in the generate stage, a `positive` intent at `present_offer`
writes `close_positive` into the state, even though the flow transition
table maps that pair to `awaiting_decision` — the table's step is
skipped entirely. -/
theorem C10_present_offer_positive_shortcut (llm : LlmResult) (nr : Bool)
    (d : CollectedData) (u : String) (p : ProductType)
    (seg : CustomerSegment) :
    (generate_stage llm nr .present_offer .positive d u p seg).2 =
      .close_positive ∧
    get_next_step .present_offer .positive d = .awaiting_decision := by
  constructor
  · simp [generate_stage]
  · simp [get_next_step]

/-- C9: both propensity-score formulas land in `[0, 1]` on every input
(the session-creation formula in `app/core/utils.py` in fact lands in
`[0.1, 1]`). -/
theorem C9_propensity_scores_clamped (seg1 : String) (inc1 : Option ℚ)
    (emp : Option String) (seg2 : String) (credit : Option ℤ)
    (inc2 : Option ℚ) (prods : Bool) :
    (0 ≤ utils_calculate_propensity_score seg1 inc1 emp ∧
      utils_calculate_propensity_score seg1 inc1 emp ≤ 1) ∧
    (0 ≤ customers_calculate_propensity_score seg2 credit inc2 prods ∧
      customers_calculate_propensity_score seg2 credit inc2 prods ≤ 1) := by
  constructor
  · unfold utils_calculate_propensity_score
    dsimp only
    constructor
    · exact le_trans (by norm_num) (le_max_left _ _)
    · exact max_le (by norm_num) (min_le_left _ _)
  · unfold customers_calculate_propensity_score
    dsimp only
    constructor
    · exact le_min (by norm_num) (le_max_left _ _)
    · exact min_le_left _ _

/-- C2 counterexample: with exactly two of the three required fields
present, `data_completeness` is `66` (Python `int()` truncates
`66.66…`), not the claimed `67`; and with all three fields present but
an out-of-range income (`100 < 500`, so not valid), it is still `100`
— presence alone is counted, validity is not checked. -/
theorem C2_counterexample :
    (get_conversation_progress .collect_amount
        ⟨some (.num 2500), some (.str "employee"), none⟩).data_completeness
      = 66 ∧
    (get_conversation_progress .collect_amount
        ⟨some (.num 2500), some (.str "employee"), none⟩).data_completeness
      ≠ 67 ∧
    (get_conversation_progress .present_offer
        ⟨some (.num 100), some (.str "employee"),
         some (.num 5000)⟩).data_completeness = 100 ∧
    has_valid_income ⟨some (.num 100), some (.str "employee"),
        some (.num 5000)⟩ = false := by
  refine ⟨rfl, by decide, rfl, ?_⟩
  rw [Bool.eq_false_iff]
  intro hc
  rcases (has_valid_income_iff _).mp hc with ⟨x, hx, h5, _⟩
  have : x = 100 := by
    injection hx with hx1
    injection hx1 with hx2
    exact hx2.symm
  rw [this] at h5
  norm_num at h5

/-- C2 (amended): `data_completeness` is `100` exactly when all three
required fields are present (not `None`) — presence is not
validity-checked — and is `66` / `33` / `0` when exactly two / one /
none are present (truncated, not rounded, integer percentage). -/
theorem C2_data_completeness (step : ConversationStep) (d : CollectedData) :
    ((get_conversation_progress step d).data_completeness = 100 ↔
      d.monthly_income.isSome ∧ d.employment_type.isSome ∧
        d.requested_amount.isSome) ∧
    (completed_fields d = 2 →
      (get_conversation_progress step d).data_completeness = 66) ∧
    (completed_fields d = 1 →
      (get_conversation_progress step d).data_completeness = 33) ∧
    (completed_fields d = 0 →
      (get_conversation_progress step d).data_completeness = 0) := by
  obtain ⟨mi, et, ra⟩ := d
  cases mi <;> cases et <;> cases ra <;>
    simp [get_conversation_progress, completed_fields]

/-- Witness for C2 at a concrete two-field state. -/
theorem C2_data_completeness_witness :
    (get_conversation_progress .greeting
        ⟨some (.num 2500), some (.str "employee"), none⟩).data_completeness
      = 66 :=
  (C2_data_completeness .greeting
      ⟨some (.num 2500), some (.str "employee"), none⟩).2.1 rfl

/-- The lead gate ignores `lead_generated` and `lead_id`. -/
theorem lead_gate_ignores_lead_flags (s : SessionState) (g : Option Bool)
    (i : Option String) :
    lead_gate true { s with lead_generated := g, lead_id := i } =
      lead_gate true s := rfl

/-- C1 evaluated on the failing input: on a state whose lead has
already been emitted (`lead_generated = some true`) but which still
satisfies the `close_positive` conditions, every further run of
`save_conversation` calls `save_lead` again — `n` runs insert `n`
additional lead rows for the same `session_id`, because the gate never
consults `lead_generated` and `save_lead` is an unconditional
`INSERT`. -/
theorem C1_lead_reemission :
    dup_lead_state.lead_generated = some true ∧
    lead_gate true dup_lead_state = true ∧
    ∀ n, (save_conversation_iter true "lead-2" n dup_lead_state).2 = n := by
  have hgate : lead_gate true dup_lead_state = true := rfl
  refine ⟨rfl, hgate, ?_⟩
  have main : ∀ n (s : SessionState), lead_gate true s = true →
      (save_conversation_iter true "lead-2" n s).2 = n := by
    intro n
    induction n with
    | zero => intro s _; rfl
    | succ k ih =>
        intro s hs
        have h1 : save_conversation true "lead-2" s =
            ({ s with lead_generated := some true, lead_id := some "lead-2" },
             1) := by
          rw [save_conversation, if_pos hs]
        rw [save_conversation_iter, h1]
        have h2 : lead_gate true
            { s with lead_generated := some true, lead_id := some "lead-2" }
            = true := by
          rw [lead_gate_ignores_lead_flags]; exact hs
        rw [ih _ h2]
        show 1 + k = k + 1
        omega
  exact fun n => main n dup_lead_state hgate

/-- C6: the extractors are pure functions of the utterance (re-running
yields the same value); with a range marker ("entre") and at least two
numbers found, `extract_income` returns the average of the range's two
endpoints (the first two numbers) and `extract_amount` their maximum;
otherwise the first number found is returned; with no numbers, nothing
is extracted. -/
theorem C6_extractor (msg : String) :
    (extract_income msg = extract_income msg ∧
      extract_amount msg = extract_amount msg) ∧
    (∀ m0 m1 rest, containsSub (pyLower msg) "entre" = true →
      extract_matches msg = m0 :: m1 :: rest →
      extract_income msg = some ((parseNum m0 + parseNum m1) / 2) ∧
      extract_amount msg = some (max (parseNum m0) (parseNum m1))) ∧
    (∀ m0 rest, extract_matches msg = m0 :: rest →
      containsSub (pyLower msg) "entre" = false ∨ rest = [] →
      extract_income msg = some (parseNum m0) ∧
      extract_amount msg = some (parseNum m0)) ∧
    (extract_matches msg = [] →
      extract_income msg = none ∧ extract_amount msg = none) := by
  refine ⟨⟨rfl, rfl⟩, ?_, ?_, ?_⟩
  · intro m0 m1 rest he hm
    unfold extract_income extract_amount
    rw [hm, he]
    exact ⟨rfl, rfl⟩
  · intro m0 rest hm hor
    unfold extract_income extract_amount
    rw [hm]
    rcases hor with he | hrest
    · rw [he]
      cases rest <;> exact ⟨rfl, rfl⟩
    · subst hrest
      cases hc : containsSub (pyLower msg) "entre" <;> exact ⟨rfl, rfl⟩
  · intro h
    unfold extract_income extract_amount
    rw [h]
    exact ⟨rfl, rfl⟩

/-- Witness for C6: the spec's range phrase yields the average for
income and the maximum for amount. -/
theorem C6_extractor_witness :
    extract_income "entre 2000 y 3000" = some 2500 ∧
    extract_amount "entre 2000 y 3000" = some 3000 := by
  have h := (C6_extractor "entre 2000 y 3000").2.1
    ['2', '0', '0', '0'] ['3', '0', '0', '0'] [] (by decide) (by decide)
  have p1 : parseNum ['2', '0', '0', '0'] = ((2000 : ℕ) : ℚ) := rfl
  have p2 : parseNum ['3', '0', '0', '0'] = ((3000 : ℕ) : ℚ) := rfl
  refine ⟨h.1.trans ?_, h.2.trans ?_⟩
  · rw [p1, p2]; norm_num
  · rw [p1, p2]
    norm_num [max_eq_right]

/-- C7: the offer calculator is a pure function of product and income;
for `credit_card` the limit is `min(income * 5, 15000)` with the card
tier chosen by income thresholds; for `savings` the deposit is
`income * 0.15` and the projected annual yield
`deposit * 12 * 0.065`. -/
theorem C7_offer_calculator (x : ℚ) (hx : x ≠ 0) :
    build_offer .credit_card ⟨some (.num x), none, none⟩ =
      .credit_card (min (x * 5) 15000) (get_card_type x) ∧
    build_offer .savings ⟨some (.num x), none, none⟩ =
      .savings (x * (15 / 100)) (x * (15 / 100) * 12 * (65 / 1000)) ∧
    (5000 ≤ x → get_card_type x = "Tarjeta Platinum") ∧
    (2500 ≤ x → x < 5000 → get_card_type x = "Tarjeta Gold") ∧
    (x < 2500 → get_card_type x = "Tarjeta Classic") := by
  refine ⟨?_, ?_, ?_, ?_, ?_⟩
  · simp [build_offer, product_calculation, hx]
  · simp [build_offer, product_calculation, hx]
  · intro h
    rw [get_card_type, if_pos h]
  · intro h1 h2
    rw [get_card_type, if_neg (not_le.mpr h2), if_pos h1]
  · intro h
    rw [get_card_type, if_neg (not_le.mpr (lt_of_lt_of_le h (by norm_num))),
      if_neg (not_le.mpr h)]

/-- Witness for C7: income 6000 gives limit 15000 and the Platinum
card; income 1000 gives deposit 150 and annual yield 117. -/
theorem C7_offer_calculator_witness :
    build_offer .credit_card ⟨some (.num 6000), none, none⟩ =
      .credit_card 15000 "Tarjeta Platinum" ∧
    build_offer .savings ⟨some (.num 1000), none, none⟩ =
      .savings 150 117 := by
  have h1 := C7_offer_calculator 6000 (by norm_num)
  have h2 := C7_offer_calculator 1000 (by norm_num)
  constructor
  · rw [h1.1, h1.2.2.1 (by norm_num)]
    norm_num [min_eq_right]
  · rw [h2.2.1]
    norm_num

/-- C8: the intent classifier evaluates its rules in strict priority
order on the lower-cased stripped utterance, first match winning:
positive, negative, info-request, objection lexicons, then the numeric
fallback at the collection steps, then the employment lexicon, and
`UNCLEAR` otherwise; in particular a positive-lexicon hit wins over any
negative-lexicon hit. -/
theorem C8_intent_priority (msg : String) (step : ConversationStep) :
    (containsAny (pyStrip (pyLower msg)) POSITIVE_KEYWORDS = true →
      analyze msg step = .positive) ∧
    (containsAny (pyStrip (pyLower msg)) POSITIVE_KEYWORDS = false →
     containsAny (pyStrip (pyLower msg)) NEGATIVE_KEYWORDS = true →
      analyze msg step = .negative) ∧
    (containsAny (pyStrip (pyLower msg)) POSITIVE_KEYWORDS = false →
     containsAny (pyStrip (pyLower msg)) NEGATIVE_KEYWORDS = false →
     containsAny (pyStrip (pyLower msg)) INFO_REQUEST_KEYWORDS = true →
      analyze msg step = .request_info) ∧
    (containsAny (pyStrip (pyLower msg)) POSITIVE_KEYWORDS = false →
     containsAny (pyStrip (pyLower msg)) NEGATIVE_KEYWORDS = false →
     containsAny (pyStrip (pyLower msg)) INFO_REQUEST_KEYWORDS = false →
     containsAny (pyStrip (pyLower msg)) OBJECTION_KEYWORDS = true →
      analyze msg step = .objection) ∧
    (containsAny (pyStrip (pyLower msg)) POSITIVE_KEYWORDS = false →
     containsAny (pyStrip (pyLower msg)) NEGATIVE_KEYWORDS = false →
     containsAny (pyStrip (pyLower msg)) INFO_REQUEST_KEYWORDS = false →
     containsAny (pyStrip (pyLower msg)) OBJECTION_KEYWORDS = false →
     (step = .collect_income ∨ step = .collect_amount) →
     hasDigit msg = true →
      analyze msg step = .neutral) ∧
    (containsAny (pyStrip (pyLower msg)) POSITIVE_KEYWORDS = false →
     containsAny (pyStrip (pyLower msg)) NEGATIVE_KEYWORDS = false →
     containsAny (pyStrip (pyLower msg)) INFO_REQUEST_KEYWORDS = false →
     containsAny (pyStrip (pyLower msg)) OBJECTION_KEYWORDS = false →
     ¬((step = .collect_income ∨ step = .collect_amount) ∧
        hasDigit msg = true) →
     containsAny (pyStrip (pyLower msg)) EMPLOYMENT_KEYWORDS = true →
      analyze msg step = .neutral) ∧
    (containsAny (pyStrip (pyLower msg)) POSITIVE_KEYWORDS = false →
     containsAny (pyStrip (pyLower msg)) NEGATIVE_KEYWORDS = false →
     containsAny (pyStrip (pyLower msg)) INFO_REQUEST_KEYWORDS = false →
     containsAny (pyStrip (pyLower msg)) OBJECTION_KEYWORDS = false →
     ¬((step = .collect_income ∨ step = .collect_amount) ∧
        hasDigit msg = true) →
     containsAny (pyStrip (pyLower msg)) EMPLOYMENT_KEYWORDS = false →
      analyze msg step = .unclear) := by
  refine ⟨?_, ?_, ?_, ?_, ?_, ?_, ?_⟩ <;>
    · intros
      simp_all [analyze]

/-- Witness for C8: an utterance containing both positive ("sí") and
negative ("no", "no me interesa") lexicon tokens classifies as
`POSITIVE`. -/
theorem C8_intent_priority_witness :
    containsAny (pyStrip (pyLower "Sí, pero no me interesa"))
        NEGATIVE_KEYWORDS = true ∧
    analyze "Sí, pero no me interesa" .present_offer = .positive :=
  ⟨by decide,
   (C8_intent_priority "Sí, pero no me interesa" .present_offer).1 (by decide)⟩

set_option maxRecDepth 16384 in
/-- C5 counterexample: after a positive greeting (next step
`collect_income`) with the backend failing, the outbound text is the
collect-income template RENDERED with the turn's variables
(`confirmation_phrase`, `income_context` substituted), which differs
from the un-rendered template text claimed by the spec; the turn still
completes with the valid next step `collect_income`. -/
theorem C5_counterexample :
    (generate_stage none false .greeting .positive emptyData "Ana"
        .credit_card .standard).1 ≠ rawText collect_income_template ∧
    (generate_stage none false .greeting .positive emptyData "Ana"
        .credit_card .standard).1 =
      "Excelente. Para recomendarte las mejores opciones disponibles, ¿podrías contarme cuáles son tus ingresos mensuales aproximados?\n\nEsto me ayuda a calcular el límite ideal para ti." ∧
    (generate_stage none false .greeting .positive emptyData "Ana"
        .credit_card .standard).2 = .collect_income := by
  refine ⟨by decide, by decide, rfl⟩

set_option maxHeartbeats 1000000 in
/-- C5 (amended): whenever the text-generation backend call fails, the
turn still completes, with the same next step as on backend success;
outside the canned-negative shortcut the outbound text is the locally
built step prompt — the step template rendered with the turn's context
variables (the raw un-rendered template only when a required variable
is missing) — post-processed by `_clean_response`. -/
theorem C5_llm_failure_fallback (nr : Bool) (current : ConversationStep)
    (intent : IntentType) (d : CollectedData) (u : String)
    (p : ProductType) (seg : CustomerSegment) (s : String)
    (h : ¬(intent = .negative ∧ current ≠ .greeting)) :
    (generate_stage none nr current intent d u p seg).2 =
      (generate_stage (some s) nr current intent d u p seg).2 ∧
    (generate_stage none nr current intent d u p seg).1 =
      (if current = .present_offer ∧ intent = .positive then
        clean_response (build_step_prompt .close_positive u p seg d [])
      else if get_next_step current intent d = .present_offer then
        clean_response (build_step_prompt .present_offer u p seg d
          [("offer_details", PyVal.str (build_product_offer p d))])
      else
        clean_response (build_step_prompt
          (if nr then current else get_next_step current intent d)
          u p seg d [])) := by
  constructor
  · unfold generate_stage
    split_ifs <;> rfl
  · unfold generate_stage
    rw [if_neg h]
    split_ifs <;> rfl

/-- Witness for C5: a concrete failing turn at `greeting` with positive
intent; the next step matches the one a successful backend call would
give, and the response is the cleaned locally-rendered step prompt. -/
theorem C5_llm_failure_fallback_witness :
    (generate_stage none false .greeting .positive emptyData "Ana"
        .credit_card .standard).2 =
      (generate_stage (some "¡Hola!") false .greeting .positive emptyData
        "Ana" .credit_card .standard).2 ∧
    (generate_stage none false .greeting .positive emptyData "Ana"
        .credit_card .standard).1 =
      clean_response (build_step_prompt .collect_income "Ana" .credit_card
        .standard emptyData []) := by
  have h := C5_llm_failure_fallback false .greeting .positive emptyData
    "Ana" .credit_card .standard "¡Hola!" (by simp)
  refine ⟨h.1, ?_⟩
  rw [h.2]
  have hn : get_next_step .greeting .positive emptyData = .collect_income :=
    rfl
  rw [hn]
  simp

end AgentBG
